import Mathlib

/-!
Verification development for the AI-FinancePilot analytics core.

The Python source is shallowly embedded in Lean 4:
* pandas DataFrames become a `Table` (a list of transactions plus flags
  recording which optional columns are present);
* exact decimal arithmetic is modelled by `ℚ` (the spec's numbers are exact
  and the operations involved are ring operations and comparisons);
* IEEE special values that genuinely arise (means of empty series, division
  by zero under numpy) are modelled by the domain `PF` with explicit
  `nan`/`pinf`/`ninf` elements and IEEE comparison semantics;
* standard deviations enter the source only through comparisons
  (`z > 2`, `cv <= 0.1`, `std < 10`); since `√v ≤ c·m ↔ v ≤ c²·m²` for
  nonnegative quantities, every such comparison is embedded by its exact
  squared form over `ℚ`, avoiding irrational numbers;
* `datetime.now()` is threaded as an explicit `Date` argument;
* user-facing formatted message strings are not modelled (only the
  structured fields of the produced records are).
-/

/-!
Batteries seals the core `Rat` arithmetic behind `@[irreducible]` purely to
keep `simp`/`rfl` from unfolding it accidentally; the kernel semantics are
unchanged by reducibility attributes. The embedding below relies on
evaluating table-level computations inside `decide`/`rfl` proofs, so the
ordinary (semireducible) status of these definitions is restored.
-/
set_option allowUnsafeReducibility true in
attribute [semireducible] Rat.add Rat.mul Rat.sub Rat.inv Rat.ofScientific

/-- Calendar date (time of day is irrelevant to the core). Years are assumed
to be ≥ 1 (all data in scope is modern); with that restriction all the
arithmetic below stays in `ℕ`. -/
structure Date where
  year : ℕ
  month : ℕ
  day : ℕ
deriving DecidableEq, Repr

/-- Days since 0000-03-01 (standard civil-calendar day count, restricted to
nonnegative years). 2000-03-01 was a Wednesday and 146097 % 7 = 0, so
`toDays % 7` determines the weekday. -/
def Date.toDays (d : Date) : ℕ :=
  let y := if d.month ≤ 2 then d.year - 1 else d.year
  let era := y / 400
  let yoe := y % 400
  let mp := (d.month + 9) % 12
  let doy := (153 * mp + 2) / 5 + (d.day - 1)
  let doe := yoe * 365 + yoe / 4 - yoe / 100 + doy
  era * 146097 + doe

/-- Weekday with Monday = 0 … Sunday = 6 (the convention of
`pandas .dt.weekday`); day 0 of the epoch above is a Wednesday. -/
def Date.weekday (d : Date) : ℕ := (d.toDays + 2) % 7

/-- `pandas .dt.day_name()`. -/
def dayName (w : ℕ) : String :=
  (["Monday", "Tuesday", "Wednesday", "Thursday", "Friday", "Saturday",
    "Sunday"].getD w "")

/-- One row of the cleaned transaction table. `category` is meaningful only
when the owning table's `hasCategory` flag is set (the source checks
`'category' in df.columns`). -/
structure Txn where
  date : Date
  description : String
  amount : ℚ
  category : String
deriving DecidableEq, Repr

/-- The in-memory transaction table. `hasCategory` records whether the
optional `category` column exists; `hasIsWeekend` records whether the
helper `is_weekend` column added by `_identify_spending_patterns` exists
(mutating a table flips this flag, which is how the frame analysis tracks
in-place column additions). -/
structure Table where
  rows : List Txn
  hasCategory : Bool
  hasIsWeekend : Bool
deriving DecidableEq, Repr

/-- The `month_year` grouping key of a row: (year, month). -/
def Txn.monthKey (r : Txn) : ℕ × ℕ := (r.date.year, r.date.month)

/-- Lexicographic order on month keys (the ascending key order produced by
`groupby('month_year')`). -/
def mkeyLe (a b : ℕ × ℕ) : Prop := a.1 < b.1 ∨ (a.1 = b.1 ∧ a.2 ≤ b.2)

instance : DecidableRel mkeyLe := fun a b => by unfold mkeyLe; infer_instance

instance : IsTotal (ℕ × ℕ) mkeyLe := by
  constructor
  intro a b
  unfold mkeyLe
  rcases Nat.lt_trichotomy a.1 b.1 with h | h | h
  · exact Or.inl (Or.inl h)
  · rcases Nat.le_total a.2 b.2 with h2 | h2
    · exact Or.inl (Or.inr ⟨h, h2⟩)
    · exact Or.inr (Or.inr ⟨h.symm, h2⟩)
  · exact Or.inr (Or.inl h)

instance : IsTrans (ℕ × ℕ) mkeyLe := by
  constructor
  intro a b c hab hbc
  unfold mkeyLe at *
  rcases hab with h | ⟨h1, h2⟩ <;> rcases hbc with h' | ⟨h1', h2'⟩
  · exact Or.inl (h.trans h')
  · exact Or.inl (h1' ▸ h)
  · exact Or.inl (h1 ▸ h')
  · exact Or.inr ⟨h1.trans h1', h2.trans h2'⟩

/-- Python `str.lower()`: character-wise lowercasing (the descriptions in
scope are ASCII, where this coincides with Python's semantics). -/
def pyLower (s : String) : String := ⟨s.data.map Char.toLower⟩

/-- Python `str.strip()`: strip whitespace from both ends. -/
def pyStrip (s : String) : String :=
  ⟨((s.data.dropWhile Char.isWhitespace).reverse.dropWhile Char.isWhitespace).reverse⟩

/-- Lexicographic ≤ on character lists by code point — exactly how Python
and pandas compare strings when sorting group keys. -/
def chListLeB : List Char → List Char → Bool
  | [], _ => true
  | _ :: _, [] => false
  | a :: as, b :: bs =>
      if a.val < b.val then true
      else if a.val = b.val then chListLeB as bs else false

/-- Lexicographic < on character lists by code point. -/
def chListLtB : List Char → List Char → Bool
  | [], [] => false
  | [], _ :: _ => true
  | _ :: _, [] => false
  | a :: as, b :: bs =>
      if a.val < b.val then true
      else if a.val = b.val then chListLtB as bs else false

/-- String ≤ by code points (the pandas group-key order). -/
def strLe (a b : String) : Prop := chListLeB a.data b.data = true

/-- String < by code points. -/
def strLt (a b : String) : Prop := chListLtB a.data b.data = true

instance : DecidableRel strLe := fun a b => by unfold strLe; infer_instance

instance : DecidableRel strLt := fun a b => by unfold strLt; infer_instance

/-- Sorted distinct keys, as produced by a pandas `groupby` (keys sorted
ascending). -/
def monthKeysOf (rows : List Txn) : List (ℕ × ℕ) :=
  List.insertionSort mkeyLe (rows.map Txn.monthKey).eraseDups

/-- Sorted distinct string keys (`groupby` over a string column). -/
def strKeysOf (l : List String) : List String :=
  List.insertionSort strLe l.eraseDups

/-- Substring test on character lists (Python's `needle in haystack`). -/
def startsWithCL : List Char → List Char → Bool
  | [], _ => true
  | _ :: _, [] => false
  | a :: as, b :: bs => a = b && startsWithCL as bs

/-- Substring occurrence anywhere in the haystack. -/
def subListCL (n : List Char) : List Char → Bool
  | [] => n.isEmpty
  | h :: t => startsWithCL n (h :: t) || subListCL n t

/-- Python `needle in haystack` on strings. -/
def containsSub (needle hay : String) : Bool :=
  subListCL needle.toList hay.toList

/-- Mean of a list of rationals (callers guard nonemptiness; pandas returns
NaN for an empty mean, which callers model through `mean?`/`meanPF`). -/
def meanQ (l : List ℚ) : ℚ := l.sum / l.length

/-- Mean as pandas computes it: `none` (NaN) on an empty series. -/
def meanOpt (l : List ℚ) : Option ℚ :=
  if l.isEmpty then none else some (meanQ l)

/-- Sample variance with `ddof = 1` (the pandas `Series.std()`/`var()`
default): `none` models the NaN produced for fewer than two points. -/
def sampleVar (l : List ℚ) : Option ℚ :=
  if l.length ≥ 2 then
    some (((l.map (fun x => (x - meanQ l) ^ 2)).sum) / ((l.length - 1 : ℕ) : ℚ))
  else none

/-- Value domain for places where numpy floats can leave the rationals:
a number, NaN (mean of an empty series, 0/0, NaN-propagation), or ±∞
(nonzero/0). Comparisons follow IEEE: any comparison with NaN is false. -/
inductive PF where
  | num (q : ℚ)
  | nan
  | pinf
  | ninf
deriving DecidableEq, Repr

/-- IEEE subtraction on the fragment of values that the embedded code can
produce. -/
def PF.sub : PF → PF → PF
  | PF.num a, PF.num b => PF.num (a - b)
  | PF.nan, _ => PF.nan
  | _, PF.nan => PF.nan
  | PF.pinf, PF.pinf => PF.nan
  | PF.ninf, PF.ninf => PF.nan
  | PF.pinf, _ => PF.pinf
  | PF.ninf, _ => PF.ninf
  | PF.num _, PF.pinf => PF.ninf
  | PF.num _, PF.ninf => PF.pinf

/-- IEEE multiplication (`∞ · 0 = NaN`). -/
def PF.mul : PF → PF → PF
  | PF.num a, PF.num b => PF.num (a * b)
  | PF.nan, _ => PF.nan
  | _, PF.nan => PF.nan
  | PF.pinf, PF.pinf => PF.pinf
  | PF.pinf, PF.ninf => PF.ninf
  | PF.ninf, PF.pinf => PF.ninf
  | PF.ninf, PF.ninf => PF.pinf
  | PF.pinf, PF.num b => if b > 0 then PF.pinf else if b < 0 then PF.ninf else PF.nan
  | PF.ninf, PF.num b => if b > 0 then PF.ninf else if b < 0 then PF.pinf else PF.nan
  | PF.num a, PF.pinf => if a > 0 then PF.pinf else if a < 0 then PF.ninf else PF.nan
  | PF.num a, PF.ninf => if a > 0 then PF.ninf else if a < 0 then PF.pinf else PF.nan

/-- IEEE division as numpy performs it (`x/0 = ±∞` with a warning,
`0/0 = NaN`; no exception is raised because the operands are numpy
floats). -/
def PF.div : PF → PF → PF
  | PF.num a, PF.num b =>
      if b = 0 then (if a > 0 then PF.pinf else if a < 0 then PF.ninf else PF.nan)
      else PF.num (a / b)
  | PF.nan, _ => PF.nan
  | _, PF.nan => PF.nan
  | PF.num _, PF.pinf => PF.num 0
  | PF.num _, PF.ninf => PF.num 0
  | PF.pinf, PF.num b => if b < 0 then PF.ninf else PF.pinf
  | PF.ninf, PF.num b => if b < 0 then PF.pinf else PF.ninf
  | PF.pinf, _ => PF.nan
  | PF.ninf, _ => PF.nan

/-- IEEE strict less-than: false whenever NaN is involved. -/
def PF.ltb : PF → PF → Bool
  | PF.num a, PF.num b => a < b
  | PF.nan, _ => false
  | _, PF.nan => false
  | PF.pinf, _ => false
  | _, PF.pinf => true
  | _, PF.ninf => false
  | PF.ninf, _ => true

/-- IEEE less-or-equal: false whenever NaN is involved. -/
def PF.leb : PF → PF → Bool
  | PF.num a, PF.num b => a ≤ b
  | PF.nan, _ => false
  | _, PF.nan => false
  | _, PF.pinf => true
  | PF.pinf, _ => false
  | PF.ninf, _ => true
  | _, PF.ninf => false

def PF.gtb (a b : PF) : Bool := PF.ltb b a

def PF.geb (a b : PF) : Bool := PF.leb b a

/-- CPython `max(a, b)`: returns `b` if `b > a` else `a` (which is how NaN
arguments silently lose). -/
def pymax (a b : PF) : PF := if PF.gtb b a then b else a

/-- CPython `min(a, b)`: returns `b` if `b < a` else `a`. -/
def pymin (a b : PF) : PF := if PF.ltb b a then b else a

def PF.abs : PF → PF
  | PF.num q => PF.num |q|
  | PF.nan => PF.nan
  | PF.pinf => PF.pinf
  | PF.ninf => PF.pinf

/-- A finite (neither NaN nor infinite) value. -/
def PF.isFinite : PF → Bool
  | PF.num _ => true
  | _ => false

/-- Extract the rational from a `PF` known (by construction at every call
site) to be a number; the default is never reached there. -/
def PF.toQ : PF → ℚ
  | PF.num q => q
  | _ => 0

/-- Mean as a `PF` value: NaN on an empty series, as in pandas. -/
def meanPF (l : List ℚ) : PF :=
  match meanOpt l with
  | none => PF.nan
  | some q => PF.num q

/-- Sum of the amounts of the rows selected by `p`. -/
def sumAmounts (rows : List Txn) (p : Txn → Bool) : ℚ :=
  ((rows.filter p).map Txn.amount).sum

/-- `df[df['amount'] < 0].groupby('month_year')['amount'].sum().abs()`:
the per-month expense series, keyed and ordered by ascending month key. -/
def monthlyExpenseSeries (t : Table) : List ((ℕ × ℕ) × ℚ) :=
  let ex := t.rows.filter (fun r => r.amount < 0)
  (monthKeysOf ex).map (fun k => (k, |sumAmounts ex (fun r => r.monthKey = k)|))

/-- The values of the monthly expense series, in key order. -/
def monthlyExpenseValues (t : Table) : List ℚ :=
  (monthlyExpenseSeries t).map Prod.snd

/-- `df[df['amount'] < 0].groupby('month_year')['amount'].sum()` without the
final `abs` (needed where the source takes `abs` only after a `mean`). -/
def monthlyExpenseSumsSigned (t : Table) : List ℚ :=
  let ex := t.rows.filter (fun r => r.amount < 0)
  (monthKeysOf ex).map (fun k => sumAmounts ex (fun r => r.monthKey = k))

/-- `df[df['amount'] > 0].groupby('month_year')['amount'].sum()`: the
per-month income sums in ascending key order. -/
def monthlyIncomeSums (t : Table) : List ℚ :=
  let inc := t.rows.filter (fun r => r.amount > 0)
  (monthKeysOf inc).map (fun k => sumAmounts inc (fun r => r.monthKey = k))

/-- `df[df['amount'] < 0].groupby('category')['amount'].sum().abs()`: the
per-category expense totals, keyed and ordered by ascending category name. -/
def categoryExpenseSeries (t : Table) : List (String × ℚ) :=
  let ex := t.rows.filter (fun r => r.amount < 0)
  (strKeysOf (ex.map Txn.category)).map
    (fun c => (c, |sumAmounts ex (fun r => r.category = c)|))

/-- `len(df['month_year'].unique())`: number of distinct months in the whole
table (first-occurrence dedup; the count does not depend on order). -/
def numDistinctMonths (t : Table) : ℕ :=
  ((t.rows.map Txn.monthKey).eraseDups).length

/-! ## expense_categorizer.py -/

/-- The fixed income-keyword list used by the positive-amount special case
in `_categorize_by_keywords`. -/
def incomeSpecialKeywords : List String :=
  ["salary", "payroll", "deposit", "refund", "cashback", "dividend"]

def foodKeywords : List String :=
  ["restaurant", "cafe", "food", "dining", "pizza", "burger", "starbucks",
   "mcdonald", "subway", "grocery", "market", "supermarket", "uber eats",
   "doordash", "grubhub", "delivery", "takeout"]

def transportationKeywords : List String :=
  ["gas", "fuel", "uber", "lyft", "taxi", "bus", "train", "metro",
   "parking", "toll", "car", "vehicle", "auto", "mechanic", "tire"]

def shoppingKeywords : List String :=
  ["amazon", "walmart", "target", "mall", "store", "retail", "clothing",
   "shoes", "electronics", "books", "home depot", "lowes"]

def billsKeywords : List String :=
  ["electric", "electricity", "gas bill", "water", "internet", "phone",
   "cable", "subscription", "netflix", "spotify", "utility", "bill"]

def entertainmentKeywords : List String :=
  ["movie", "cinema", "theater", "concert", "game", "sport", "gym",
   "fitness", "netflix", "spotify", "entertainment", "club", "bar"]

def healthKeywords : List String :=
  ["doctor", "hospital", "pharmacy", "medical", "health", "dental",
   "vision", "clinic", "prescription", "medicine", "cvs", "walgreens"]

def travelKeywords : List String :=
  ["airline", "flight", "hotel", "airbnb", "rental car", "vacation",
   "travel", "booking", "expedia", "trip", "resort"]

def educationKeywords : List String :=
  ["school", "university", "college", "tuition", "education", "book",
   "course", "training", "certification"]

def insuranceKeywords : List String :=
  ["insurance", "premium", "policy", "coverage", "deductible"]

def investmentKeywords : List String :=
  ["investment", "stock", "bond", "mutual fund", "401k", "ira",
   "retirement", "savings", "dividend", "brokerage"]

def incomeKeywords : List String :=
  ["salary", "payroll", "wage", "bonus", "refund", "cashback",
   "deposit", "payment received", "income"]

def transferKeywords : List String :=
  ["transfer", "atm", "withdrawal", "deposit", "check", "wire",
   "payment to", "send money"]

/-- `self.keyword_mappings`: the ordered category → keyword-list mapping
(a Python dict preserves insertion order, so the scan order is exactly this
list order). -/
def keywordMappings : List (String × List String) :=
  [("Food & Dining", foodKeywords),
   ("Transportation", transportationKeywords),
   ("Shopping", shoppingKeywords),
   ("Bills & Utilities", billsKeywords),
   ("Entertainment", entertainmentKeywords),
   ("Health & Medical", healthKeywords),
   ("Travel", travelKeywords),
   ("Education", educationKeywords),
   ("Insurance", insuranceKeywords),
   ("Investment", investmentKeywords),
   ("Income", incomeKeywords),
   ("Transfer", transferKeywords)]

/-- Does any keyword of the list occur in the (already lowercased)
description? -/
def anyKeywordIn (keywords : List String) (descLower : String) : Bool :=
  keywords.any (fun k => containsSub k descLower)

/-- `ExpenseCategorizer._categorize_by_keywords`. -/
def categorize_by_keywords (description : String) (amount : ℚ) : String :=
  let descriptionLower := pyLower description
  if 0 < amount ∧ anyKeywordIn incomeSpecialKeywords descriptionLower then
    "Income"
  else
    match keywordMappings.find? (fun p => anyKeywordIn p.2 descriptionLower) with
    | some p => p.1
    | none => "Other"

/-- `ExpenseCategorizer._categorize_single_transaction`. The description is
lowercased and stripped first; the transformer branch is dead code
(`self.classifier` is always `None`), so the result is exactly the keyword
categorization. -/
def categorize_single_transaction (description : String) (amount : ℚ) : String :=
  let d := pyStrip (pyLower description)
  let keywordCategory := categorize_by_keywords d amount
  if keywordCategory ≠ "Other" then keywordCategory else "Other"

/-- `ExpenseCategorizer.categorize_transactions`. The source copies the
frame (`df.copy()`), adds a `category` column defaulting to `'Other'` if
absent, then overwrites every row's category; all writes go to the copy.
The pair returned is (the categorized copy, the caller's table after the
call). -/
def categorize_transactions (df : Table) : Table × Table :=
  let dfCopy := df
  let dfCopy :=
    if dfCopy.hasCategory then dfCopy
    else ⟨dfCopy.rows.map (fun r => { r with category := "Other" }),
          true, dfCopy.hasIsWeekend⟩
  let dfCopy :=
    { dfCopy with rows := dfCopy.rows.map (fun r =>
        { r with category := categorize_single_transaction r.description r.amount }) }
  (dfCopy, df)

/-! ## financial_health.py -/

/-- `self.score_weights` (they sum to 1.0). -/
def score_weights : List (String × ℚ) :=
  [("savings_rate", 25/100),
   ("spending_consistency", 20/100),
   ("category_balance", 15/100),
   ("debt_management", 15/100),
   ("income_stability", 15/100),
   ("emergency_fund", 10/100)]

/-- `_calculate_savings_rate_score`: per month (all months present in the
table, ascending key order), savings rate in percent for months with
positive income, clamped at 0; banded score of the average. -/
def calculate_savings_rate_score (t : Table) : ℚ :=
  let savingsRates := (monthKeysOf t.rows).filterMap (fun k =>
    let monthRows := t.rows.filter (fun r => r.monthKey = k)
    let income := sumAmounts monthRows (fun r => 0 < r.amount)
    let expenses := |sumAmounts monthRows (fun r => r.amount < 0)|
    if 0 < income then some (max 0 ((income - expenses) / income * 100))
    else none)
  if savingsRates.isEmpty then 50
  else
    let avg := meanQ savingsRates
    if avg ≥ 20 then 100 else if avg ≥ 15 then 85 else if avg ≥ 10 then 70
    else if avg ≥ 5 then 55 else if avg ≥ 0 then 40 else 20

/-- Banded coefficient-of-variation score. The source compares
`cv = std/mean` against the thresholds; for `mean > 0` each comparison
`cv ≤ c` is equivalent to `var ≤ c²·mean²`, which is how it is embedded
(exactly, over `ℚ`). For `mean ≤ 0` the source's float division yields
`inf`/`NaN`, every band fails and the last band is taken; the series values
here are strictly positive so that branch is unreachable anyway. -/
def cvBandedScore (var mean : ℚ) (c1 c2 c3 c4 : ℚ) : ℚ :=
  if 0 < mean then
    if var ≤ c1 ^ 2 * mean ^ 2 then 100
    else if var ≤ c2 ^ 2 * mean ^ 2 then 85
    else if var ≤ c3 ^ 2 * mean ^ 2 then 70
    else if var ≤ c4 ^ 2 * mean ^ 2 then 55
    else 40
  else 40

/-- `_calculate_consistency_score`. -/
def calculate_consistency_score (t : Table) : ℚ :=
  let monthlyExpenses := monthlyExpenseValues t
  if monthlyExpenses.length < 2 then 75
  else
    match sampleVar monthlyExpenses with
    | none => 75
    | some v => cvBandedScore v (meanQ monthlyExpenses) (1/10) (2/10) (3/10) (5/10)

/-- The fixed recommended spending ratios of `_calculate_category_balance_score`. -/
def recommended_ratios : List (String × ℚ) :=
  [("Food & Dining", 15/100),
   ("Transportation", 15/100),
   ("Bills & Utilities", 25/100),
   ("Entertainment", 5/100),
   ("Shopping", 10/100),
   ("Health & Medical", 5/100)]

/-- `_calculate_category_balance_score`. -/
def calculate_category_balance_score (t : Table) : ℚ :=
  if t.hasCategory = false then 70
  else
    let categorySpending := categoryExpenseSeries t
    let totalExpenses := (categorySpending.map Prod.snd).sum
    if totalExpenses = 0 then 70
    else
      let balanceScore := recommended_ratios.foldl (fun acc p =>
        match categorySpending.lookup p.1 with
        | some amt => acc - min 30 (|amt / totalExpenses - p.2| * 200)
        | none => acc) 100
      max 40 balanceScore

/-- Debt-related keyword list of `_calculate_debt_management_score` (the
source joins them into one regex for `str.contains`, i.e. any-substring). -/
def debtKeywords : List String :=
  ["loan", "credit card", "mortgage", "debt", "interest"]

/-- `_calculate_debt_management_score`. -/
def calculate_debt_management_score (t : Table) : ℚ :=
  let debtTransactions :=
    t.rows.filter (fun r => anyKeywordIn debtKeywords (pyLower r.description))
  let totalDebtPayments := |sumAmounts debtTransactions (fun r => r.amount < 0)|
  let totalExpenses := |sumAmounts t.rows (fun r => r.amount < 0)|
  if totalExpenses = 0 then 80
  else
    let debtRatio := totalDebtPayments / totalExpenses
    if debtRatio ≤ 1/10 then 100 else if debtRatio ≤ 2/10 then 85
    else if debtRatio ≤ 3/10 then 70 else if debtRatio ≤ 4/10 then 55 else 40

/-- `_calculate_income_stability_score`. -/
def calculate_income_stability_score (t : Table) : ℚ :=
  let incomeData := monthlyIncomeSums t
  if incomeData.length < 2 then 75
  else
    match sampleVar incomeData with
    | none => 75
    | some v => cvBandedScore v (meanQ incomeData) (5/100) (1/10) (2/10) (3/10)

/-- Savings-related keyword list of `_calculate_emergency_fund_score`. -/
def savingsKeywords : List String :=
  ["savings", "emergency", "fund", "investment"]

/-- `_calculate_emergency_fund_score`. The monthly-expense average is
`abs(mean(...))`, NaN when the table has no expenses, so the coverage and
its comparisons run in the `PF` domain exactly as the floats do. -/
def calculate_emergency_fund_score (t : Table) : ℚ :=
  let savingsTransactions :=
    t.rows.filter (fun r => anyKeywordIn savingsKeywords (pyLower r.description))
  let monthlyExpenses := PF.abs (meanPF (monthlyExpenseSumsSigned t))
  let totalSavings := sumAmounts savingsTransactions (fun r => 0 < r.amount)
  if monthlyExpenses = PF.num 0 then 70
  else
    let monthsCovered := PF.div (PF.num totalSavings) monthlyExpenses
    if PF.geb monthsCovered (PF.num 6) then 100
    else if PF.geb monthsCovered (PF.num 3) then 80
    else if PF.geb monthsCovered (PF.num 1) then 60
    else if PF.geb monthsCovered (PF.num (1/2)) then 40
    else 20

/-- `_get_grade`. -/
def get_grade (score : ℚ) : String :=
  if score ≥ 90 then "A+" else if score ≥ 85 then "A" else if score ≥ 80 then "B+"
  else if score ≥ 75 then "B" else if score ≥ 70 then "C+" else if score ≥ 65 then "C"
  else if score ≥ 60 then "D+" else if score ≥ 55 then "D" else "F"

/-- The `scores` dict built by `calculate_health_score`, in insertion
order. -/
def healthComponentScores (t : Table) : List (String × ℚ) :=
  [("savings_rate", calculate_savings_rate_score t),
   ("spending_consistency", calculate_consistency_score t),
   ("category_balance", calculate_category_balance_score t),
   ("debt_management", calculate_debt_management_score t),
   ("income_stability", calculate_income_stability_score t),
   ("emergency_fund", calculate_emergency_fund_score t)]

/-- `sum(scores[key] * self.score_weights[key] for key in scores.keys())`. -/
def totalHealthScore (t : Table) : ℚ :=
  ((healthComponentScores t).map
    (fun p => p.2 * ((score_weights.lookup p.1).getD 0))).sum

/-- `Series.idxmax()`: the key of the (first) maximal value; pandas raises
`ValueError` on an empty series, modelled by `Except.error` with the
pandas message. -/
def idxmaxStr (l : List (String × ℚ)) : Except String String :=
  match l with
  | [] => Except.error "attempt to get argmax of an empty sequence"
  | x :: xs => Except.ok ((xs.foldl (fun best p => if p.2 > best.2 then p else best) x).1)

/-- `_generate_health_insights`. Numeric formatting inside messages is not
modelled; the insight sentences keep their identifying prefixes. The
`idxmax` call on the per-category expense totals is reached whenever the
table has a `category` column, and raises when that series is empty. -/
def generate_health_insights (scores : List (String × ℚ)) (t : Table) :
    Except String (List String) := do
  let sortedScores := List.insertionSort (fun a b : String × ℚ => b.2 ≤ a.2) scores
  let strongest := sortedScores.headD ("", 0)
  let weakest := sortedScores.getLastD ("", 0)
  let base := ["Your strongest area is " ++ strongest.1,
               "Your weakest area is " ++ weakest.1]
  let catPart ←
    if t.hasCategory then do
      let topExpense ← idxmaxStr (categoryExpenseSeries t)
      pure ["Your largest expense category is " ++ topExpense]
    else pure []
  let monthlySpending := monthlyExpenseValues t
  let trendPart :=
    if monthlySpending.length ≥ 2 then
      [if monthlySpending.getLastD 0 > monthlySpending.headD 0 then
        "Your spending trend is increasing over time"
       else "Your spending trend is decreasing over time"]
    else []
  pure (base ++ catPart ++ trendPart)

/-- The fixed advisory string per component of `_generate_improvement_tips`. -/
def tipText : String → Option String
  | "savings_rate" =>
      some "Try to save at least 20% of your income. Start with the 50/30/20 rule."
  | "spending_consistency" =>
      some "Create a monthly budget to make your spending more predictable."
  | "category_balance" =>
      some "Review your spending categories. Consider reducing non-essential expenses."
  | "debt_management" =>
      some "Focus on paying down high-interest debt first to improve your score."
  | "income_stability" =>
      some "Consider diversifying income sources or building a more stable income stream."
  | "emergency_fund" =>
      some "Build an emergency fund covering 3-6 months of expenses."
  | _ => none

/-- `_generate_improvement_tips`. -/
def generate_improvement_tips (scores : List (String × ℚ)) : List String :=
  let tips := scores.filterMap (fun p => if p.2 < 70 then tipText p.1 else none)
  if tips.isEmpty then
    ["Great job! Your financial health is strong across all areas!"]
  else tips

/-- The record returned by `calculate_health_score`. -/
structure HealthResult where
  total_score : ℚ
  component_scores : List (String × ℚ)
  grade : String
  insights : List String
  improvement_tips : List String
deriving DecidableEq, Repr

/-- `FinancialHealthAnalyzer.calculate_health_score`. It computes the six
component scores and the weighted total, then builds the result dict; the
insight generation can raise (pandas `ValueError` from `idxmax`), in which
case the whole call raises to its caller. `round(total, 1)` is modelled by
rounding to one decimal (the claims do not depend on the tie-breaking of
Python's float rounding). -/
def calculate_health_score (t : Table) : Except String HealthResult := do
  let scores := healthComponentScores t
  let totalScore := totalHealthScore t
  let insights ← generate_health_insights scores t
  pure ⟨((round (totalScore * 10) : ℤ) : ℚ) / 10, scores, get_grade totalScore,
        insights, generate_improvement_tips scores⟩

/-! ## predictive_analytics.py -/

/-- Ordinary least squares for `np.polyfit(range(n), ys, 1)`: (slope,
intercept) by the normal equations over x = 0..n−1; exact over `ℚ`.
Callers guarantee n ≥ 2, so the denominator is nonzero. -/
def polyfit1 (ys : List ℚ) : ℚ × ℚ :=
  let n : ℚ := ys.length
  let xs : List ℚ := (List.range ys.length).map (fun i => (i : ℚ))
  let sx := xs.sum
  let sy := ys.sum
  let sxy := ((xs.zip ys).map (fun p => p.1 * p.2)).sum
  let sxx := (xs.map (fun x => x ^ 2)).sum
  let slope := (n * sxy - sx * sy) / (n * sxx - sx ^ 2)
  (slope, (sy - slope * sx) / n)

/-- Month key advanced by `i` months (`pd.DateOffset(months=i)` on the
period start). -/
def addMonths (k : ℕ × ℕ) (i : ℕ) : ℕ × ℕ :=
  let m0 := k.1 * 12 + (k.2 - 1) + i
  (m0 / 12, m0 % 12 + 1)

/-- The hard-coded seasonal factor table of `_get_seasonal_factor`. -/
def seasonal_factors : List (ℕ × ℚ) :=
  [(1, 9/10), (2, 95/100), (3, 1), (4, 105/100), (5, 1), (6, 11/10),
   (7, 115/100), (8, 11/10), (9, 1), (10, 105/100), (11, 12/10), (12, 13/10)]

/-- `_get_seasonal_factor`: 1.0 with fewer than 12 months of history, else
the table entry for the calendar month `months_ahead` months after the
current (`datetime.now()`) month. -/
def get_seasonal_factor (nHistory : ℕ) (monthsAhead : ℕ) (today : Date) : ℚ :=
  if nHistory < 12 then 1
  else
    let futureMonth := ((today.month + monthsAhead - 1) % 12) + 1
    (seasonal_factors.lookup futureMonth).getD 1

/-- `_calculate_confidence` (its `predictions` argument is unused by the
source). `cv = std/mean` is compared by its exact squared form when
`mean > 0`; a negative mean would make every float comparison `cv < c`
true (cv ≤ 0), hence 90 — unreachable here since the series values are
positive. -/
def calculate_confidence (historicalData : List ℚ) : ℚ :=
  if historicalData.length < 3 then 60
  else
    match sampleVar historicalData with
    | none => 60
    | some variance =>
      let meanValue := meanQ historicalData
      if meanValue = 0 then 50
      else if meanValue < 0 then 90
      else if variance < (1/10) ^ 2 * meanValue ^ 2 then 90
      else if variance < (2/10) ^ 2 * meanValue ^ 2 then 80
      else if variance < (3/10) ^ 2 * meanValue ^ 2 then 70
      else 60

/-- The dict returned by `predict_future_spending` (future month labels are
kept as (year, month) pairs rather than formatted strings). -/
structure PredictionResult where
  predictions : List ℚ
  future_months : List (ℕ × ℕ)
  trend_direction : String
  monthly_change : ℚ
  confidence_level : ℚ
deriving DecidableEq, Repr

/-- `_default_prediction`. -/
def default_prediction (monthsAhead : ℕ) : PredictionResult :=
  ⟨List.replicate monthsAhead 0, [], "stable", 0, 50⟩

/-- `PredictiveAnalytics.predict_future_spending`. Note the future index:
`last_month_idx = len(monthly_data)` and `future_month_idx =
last_month_idx + i` for i = 1..months_ahead, so the first prediction is
the fitted line at index N+1 (not N), times the seasonal factor, floored
at 0. -/
def predict_future_spending (t : Table) (monthsAhead : ℕ) (today : Date) :
    PredictionResult :=
  let monthlyData := monthlyExpenseSeries t
  if monthlyData.length < 2 then default_prediction monthsAhead
  else
    let spendingValues := monthlyData.map Prod.snd
    let fit := polyfit1 spendingValues
    let trendSlope := fit.1
    let trendIntercept := fit.2
    let lastMonthIdx := monthlyData.length
    let predictions := (List.range monthsAhead).map (fun j =>
      let i := j + 1
      let futureMonthIdx := lastMonthIdx + i
      let predictedValue := trendSlope * (futureMonthIdx : ℚ) + trendIntercept
      let seasonalFactor := get_seasonal_factor monthlyData.length i today
      max 0 (predictedValue * seasonalFactor))
    let lastKey := (monthlyData.getLastD ((0, 0), 0)).1
    let futureMonths := (List.range monthsAhead).map (fun j => addMonths lastKey (j + 1))
    ⟨predictions, futureMonths,
     if trendSlope > 0 then "increasing" else "decreasing",
     |trendSlope|, calculate_confidence spendingValues⟩

/-- One anomaly record of `detect_spending_anomalies`. The source stores
the z-score inside a formatted string; here its exact square is kept
(`deviationSq = z²`), and every comparison of the source is embedded in
squared form (`z > 2 ↔ z² > 4` etc., valid because z ≥ 0). -/
structure Anomaly where
  atype : String
  category : Option String
  month : ℕ × ℕ
  amount : ℚ
  deviationSq : ℚ
  severity : String
deriving DecidableEq, Repr

/-- Per-category monthly expense series
(`df[(df['category'] == c) & (df['amount'] < 0)].groupby('month_year')...`). -/
def monthlyCategoryExpenseSeries (t : Table) (c : String) : List ((ℕ × ℕ) × ℚ) :=
  let ex := t.rows.filter (fun r => r.category = c ∧ r.amount < 0)
  (monthKeysOf ex).map (fun k => (k, |sumAmounts ex (fun r => r.monthKey = k)|))

/-- The common per-series anomaly scan: requires ≥ 3 months; z-score 0 when
the standard deviation is 0; flag when z² exceeds `threshSq` (4 for the
whole portfolio, 25/4 for a category); severity high when z² > 9. -/
def anomaliesOfSeries (atype : String) (cat : Option String)
    (series : List ((ℕ × ℕ) × ℚ)) (threshSq : ℚ) : List Anomaly :=
  if series.length ≥ 3 then
    let vals := series.map Prod.snd
    let meanSpending := meanQ vals
    match sampleVar vals with
    | none => []
    | some variance =>
      series.filterMap (fun p =>
        let zsq := if 0 < variance then (p.2 - meanSpending) ^ 2 / variance else 0
        if zsq > threshSq then
          some ⟨atype, cat, p.1, p.2, zsq, if zsq > 9 then "high" else "medium"⟩
        else none)
  else []

/-- `PredictiveAnalytics.detect_spending_anomalies`: the whole-portfolio
scan (threshold z > 2) followed by one scan per category in
first-occurrence order (`df['category'].unique()`, threshold z > 2.5),
only when the `category` column exists. -/
def detect_spending_anomalies (t : Table) : List Anomaly :=
  let whole := anomaliesOfSeries "monthly_spending" none (monthlyExpenseSeries t) 4
  let catPart :=
    if t.hasCategory then
      ((t.rows.map Txn.category).eraseDups).flatMap (fun c =>
        anomaliesOfSeries "category_spending" (some c)
          (monthlyCategoryExpenseSeries t c) (25/4))
    else []
  whole ++ catPart

/-! ## goal_tracker.py -/

/-- The slice of a goal record used by the embedded goal-engine functions. -/
structure Goal where
  monthly_savings_needed : ℚ
deriving DecidableEq, Repr

/-- The dict returned by `analyze_goal_feasibility` (the formatted
`recommendation` string is not modelled). -/
structure Feasibility where
  feasibility : String
  current_monthly_savings : PF
  required_monthly_savings : ℚ
  monthly_shortage : PF
  success_probability : PF
deriving DecidableEq, Repr

/-- `GoalTracker.analyze_goal_feasibility`. All the arithmetic runs on
numpy floats in the source, so empty-series means are NaN and divisions by
zero give ±∞/NaN instead of raising; the `PF` domain reproduces this. In
particular with no income rows, `monthly_income` is NaN, the savings rate
falls to the `else 0` branch, and `current_monthly_savings = NaN * 0 =
NaN`. -/
def analyze_goal_feasibility (goal : Goal) (t : Table) : Feasibility :=
  let monthlyIncome := meanPF (monthlyIncomeSums t)
  let monthlyExpenses := PF.abs (meanPF (monthlyExpenseSumsSigned t))
  let currentSavingsRate :=
    if PF.gtb monthlyIncome (PF.num 0) then
      pymax (PF.num 0) (PF.div (PF.sub monthlyIncome monthlyExpenses) monthlyIncome)
    else PF.num 0
  let currentMonthlySavings := PF.mul monthlyIncome currentSavingsRate
  let required := goal.monthly_savings_needed
  let feas :=
    if PF.geb currentMonthlySavings (PF.num required) then "Easy"
    else if PF.geb currentMonthlySavings (PF.num (required * (8/10))) then "Achievable"
    else if PF.geb currentMonthlySavings (PF.num (required * (5/10))) then "Challenging"
    else "Difficult"
  ⟨feas, currentMonthlySavings, required,
   pymax (PF.num 0) (PF.sub (PF.num required) currentMonthlySavings),
   pymin (PF.num 100)
     (pymax (PF.num 10)
       (PF.mul (PF.div currentMonthlySavings (PF.num required)) (PF.num 100)))⟩

/-- `GoalTracker._calculate_current_savings` =
`max(0, mean(monthly income) − abs(mean(monthly expense sums)))`. The
Python `max(0, x)` keeps `0` unless `x > 0`, so the result is always an
ordinary number (NaN loses the comparison), extracted by `PF.toQ`. -/
def calculate_current_savings (t : Table) : ℚ :=
  (pymax (PF.num 0)
    (PF.sub (meanPF (monthlyIncomeSums t))
            (PF.abs (meanPF (monthlyExpenseSumsSigned t))))).toQ

/-- `GoalTracker._get_difficulty_score`. -/
def get_difficulty_score (difficulty : String) : ℕ :=
  (([("Easy", 3), ("Medium", 2), ("Hard", 1)] : List (String × ℕ)).lookup
    difficulty).getD 1

/-- One strategy record of `generate_savings_strategies` (the formatted
`description` string is not modelled). -/
structure Strategy where
  strategy : String
  potential_savings : ℚ
  difficulty : String
  category : String
deriving DecidableEq, Repr

/-- The Python sort key of the strategy sort:
`(x['potential_savings'], -difficulty_score(x['difficulty']))`. -/
def strategyKey (s : Strategy) : ℚ × ℤ :=
  (s.potential_savings, -(get_difficulty_score s.difficulty : ℤ))

/-- Lexicographic ≤ on (ℚ, ℤ) pairs. -/
def lexQZle (x y : ℚ × ℤ) : Prop := x.1 < y.1 ∨ (x.1 = y.1 ∧ x.2 ≤ y.2)

/-- `list.sort(key=..., reverse=True)` orders `a` before `b` exactly when
`key(b) ≤lex key(a)`; a stable insertion sort with this relation is the
Python stable sort. -/
def stratRel (a b : Strategy) : Prop := lexQZle (strategyKey b) (strategyKey a)

instance : DecidableRel lexQZle := fun a b => by unfold lexQZle; infer_instance

instance : DecidableRel stratRel := fun a b => by unfold stratRel; infer_instance

instance : IsTotal Strategy stratRel := by
  constructor
  intro a b
  unfold stratRel lexQZle
  rcases lt_trichotomy (strategyKey a).1 (strategyKey b).1 with h | h | h
  · exact Or.inr (Or.inl h)
  · rcases le_total (strategyKey a).2 (strategyKey b).2 with h2 | h2
    · exact Or.inr (Or.inr ⟨h, h2⟩)
    · exact Or.inl (Or.inr ⟨h.symm, h2⟩)
  · exact Or.inl (Or.inl h)

instance : IsTrans Strategy stratRel := by
  constructor
  intro a b c hab hbc
  unfold stratRel lexQZle at *
  rcases hab with h | ⟨h1, h2⟩ <;> rcases hbc with h' | ⟨h1', h2'⟩
  · exact Or.inl (h'.trans h)
  · exact Or.inl (h1' ▸ h)
  · exact Or.inl (h1 ▸ h')
  · exact Or.inr ⟨h1'.trans h1, h2'.trans h2⟩

/-- `GoalTracker._get_default_strategies`. -/
def get_default_strategies (goal : Goal) : List Strategy :=
  [⟨"Create a Budget", goal.monthly_savings_needed * (3/10), "Easy", "Planning"⟩,
   ⟨"Automate Savings", goal.monthly_savings_needed, "Easy", "Automation"⟩,
   ⟨"Reduce Discretionary Spending", goal.monthly_savings_needed * (5/10),
    "Medium", "Spending"⟩]

/-- `GoalTracker.generate_savings_strategies`. Note: without a `category`
column the fixed default list is returned unsorted; otherwise candidates
are collected (15% cuts of the first three categories in groupby key
order, 25% cuts of the named discretionary categories, the income
strategy, and a combination of the first two candidates when it covers the
shortage) and stably sorted by `(potential_savings, -difficulty_score)`
descending, keeping the top 5. -/
def generate_savings_strategies (goal : Goal) (t : Table) : List Strategy :=
  if t.hasCategory = false then get_default_strategies goal
  else
    let categorySpending := categoryExpenseSeries t
    let monthlyShortage := goal.monthly_savings_needed - calculate_current_savings t
    if monthlyShortage ≤ 0 then
      [⟨"Stay on Track", 0, "Easy", "Maintenance"⟩]
    else
      let nMonths : ℚ := ((max 1 (numDistinctMonths t) : ℕ) : ℚ)
      let s1 := (categorySpending.take 3).filterMap (fun p =>
        let monthlyAmount := p.2 / nMonths
        let potentialReduction := monthlyAmount * (15/100)
        if potentialReduction ≥ monthlyShortage * (3/10) then
          some (⟨"Reduce " ++ p.1 ++ " Spending", potentialReduction, "Medium",
                 p.1⟩ : Strategy)
        else none)
      let s2 := (["Entertainment", "Shopping", "Dining"] : List String).filterMap
        (fun c => (categorySpending.lookup c).map (fun amt =>
          let potentialReduction := amt / nMonths * (25/100)
          (⟨"Cut " ++ c, potentialReduction,
            if potentialReduction < 100 then "Easy" else "Medium", c⟩ : Strategy)))
      let strategies := s1 ++ s2 ++
        [(⟨"Increase Income", monthlyShortage, "Hard", "Income"⟩ : Strategy)]
      let strategies :=
        if strategies.length > 1 then
          let totalPotential := ((strategies.take 2).map Strategy.potential_savings).sum
          if totalPotential ≥ monthlyShortage then
            strategies ++
              [(⟨"Combination Approach", totalPotential, "Medium", "Mixed"⟩ : Strategy)]
          else strategies
        else strategies
      (List.insertionSort stratRel strategies).take 5

/-! ## smart_alerts.py -/

/-- An alert record: its type, severity, and the structured payload fields
the claims inspect (formatted message text and numeric echo fields are not
modelled). -/
structure Alert where
  atype : String
  severity : String
  category : Option String := none
  description : Option String := none
deriving DecidableEq, Repr

/-- `SmartAlertsSystem._get_alert_priority` (unknown types get 1). -/
def get_alert_priority (alertType : String) : ℕ :=
  (([("budget_exceeded", 10), ("spending_spike", 9), ("budget_warning", 8),
     ("unusual_transaction", 7), ("category_overspend", 6), ("upward_trend", 5),
     ("missing_recurring", 3)] : List (String × ℕ)).lookup alertType).getD 1

/-- `alerts.sort(key=priority, reverse=True)` orders `a` before `b` exactly
when `priority(b) ≤ priority(a)`; the stable insertion sort with this
relation is the Python stable sort. -/
def alertRel (a b : Alert) : Prop :=
  get_alert_priority b.atype ≤ get_alert_priority a.atype

instance : DecidableRel alertRel := fun a b => by unfold alertRel; infer_instance

instance : IsTotal Alert alertRel :=
  ⟨fun a b => (Nat.le_total (get_alert_priority b.atype) (get_alert_priority a.atype)).imp
    id id⟩

instance : IsTrans Alert alertRel :=
  ⟨fun _ _ _ hab hbc => Nat.le_trans hbc hab⟩

/-- The current calendar month's slice of the table
(`df[df['date'].dt.strftime('%Y-%m') == current_month]`). -/
def currentMonthSlice (t : Table) (today : Date) : Table :=
  ⟨t.rows.filter (fun r => r.date.year = today.year ∧ r.date.month = today.month),
   t.hasCategory, t.hasIsWeekend⟩

/-- `_check_budget_alerts` over the current month's slice. A zero budget
makes `spent/budget` evaluate to +∞ under numpy (`spent > 0` always holds
for a present category), hence `budget_exceeded`; `PF` reproduces this. -/
def check_budget_alerts (current : Table) (budgets : List (String × ℚ)) :
    List Alert :=
  if current.hasCategory = false then []
  else
    let currentSpending := categoryExpenseSeries current
    budgets.filterMap (fun p =>
      match currentSpending.lookup p.1 with
      | none => none
      | some spent =>
        let percentageUsed := PF.mul (PF.div (PF.num spent) (PF.num p.2)) (PF.num 100)
        if PF.geb percentageUsed (PF.num 100) then
          some ⟨"budget_exceeded", "high", some p.1, none⟩
        else if PF.geb percentageUsed (PF.num 80) then
          some ⟨"budget_warning", "medium", some p.1, none⟩
        else none)

/-- `_check_spending_spikes`: current-month expense total versus the mean
of all but the last month of the monthly series. -/
def check_spending_spikes (t current : Table) : List Alert :=
  let monthlySpending := monthlyExpenseValues t
  if monthlySpending.length < 2 then []
  else
    let historicalAvg := meanQ monthlySpending.dropLast
    let currentSpending := |sumAmounts current.rows (fun r => r.amount < 0)|
    if currentSpending > historicalAvg * (3/2) then
      let increasePercentage := (currentSpending - historicalAvg) / historicalAvg * 100
      [⟨"spending_spike", if increasePercentage > 100 then "high" else "medium",
        none, none⟩]
    else []

/-- `_check_unusual_transactions`. With fewer than two all-time expense
rows the sample std is NaN: the `std == 0` early return is not taken, but
every z-score is NaN and nothing is flagged — hence the empty result in
that case too. `z > 2` is embedded in exact squared form. -/
def check_unusual_transactions (t current : Table) : List Alert :=
  let transactionSizes := (t.rows.filter (fun r => r.amount < 0)).map (fun r => |r.amount|)
  match sampleVar transactionSizes with
  | none => []
  | some variance =>
    if variance = 0 then []
    else
      let meanTransaction := meanQ transactionSizes
      (current.rows.filter (fun r => r.amount < 0)).filterMap (fun r =>
        let amount := |r.amount|
        if amount > meanTransaction ∧
            (amount - meanTransaction) ^ 2 > 4 * variance then
          some ⟨"unusual_transaction", "medium", none, some r.description⟩
        else none)

/-- `_check_category_overspending`: current-month per-category spend versus
that category's historical per-month mean. -/
def check_category_overspending (t current : Table) : List Alert :=
  if t.hasCategory = false then []
  else
    let currentCategorySpending := categoryExpenseSeries current
    currentCategorySpending.filterMap (fun p =>
      let historicalCats :=
        strKeysOf ((t.rows.filter (fun r => r.amount < 0)).map Txn.category)
      if historicalCats.contains p.1 then
        let historicalAvg := meanQ ((monthlyCategoryExpenseSeries t p.1).map Prod.snd)
        if p.2 > historicalAvg * (13/10) then
          some ⟨"category_overspend", "medium", some p.1, none⟩
        else none
      else none)

/-- `_check_trend_alerts`: OLS slope of the monthly expense series against
10% of its mean. -/
def check_trend_alerts (t : Table) : List Alert :=
  let monthlySpending := monthlyExpenseValues t
  if monthlySpending.length < 3 then []
  else
    let trendSlope := (polyfit1 monthlySpending).1
    if trendSlope > meanQ monthlySpending * (1/10) then
      [⟨"upward_trend", "medium", none, none⟩]
    else []

/-- `_check_recurring_expense_alerts`: descriptions with ≥ 3 occurrences
and amount sample-std < 10 (`std < 10 ↔ var < 100`; a NaN std fails the
filter) whose latest occurrence is more than 35 days before `today`. The
`ℕ`-truncated day difference reproduces the float behaviour for
future-dated rows too (a negative difference also fails `> 35`). -/
def check_recurring_expense_alerts (t : Table) (today : Date) : List Alert :=
  let descs := strKeysOf (t.rows.map Txn.description)
  descs.filterMap (fun d =>
    let rows := t.rows.filter (fun r => r.description = d)
    let count := rows.length
    let stdOk :=
      match sampleVar (rows.map Txn.amount) with
      | some v => decide (v < 100)
      | none => false
    if count ≥ 3 ∧ stdOk = true then
      let lastDays := (rows.map (fun r => r.date.toDays)).foldl max 0
      let daysSince := today.toDays - lastDays
      if daysSince > 35 then some ⟨"missing_recurring", "low", none, some d⟩
      else none
    else none)

/-- `SmartAlertsSystem.generate_alerts`: the six checks in source order
(budget checks only when a budgets mapping was passed and is nonempty),
merged, stably sorted by descending type priority, truncated to 10. -/
def generate_alerts (t : Table) (budgets : List (String × ℚ)) (today : Date) :
    List Alert :=
  let currentMonthData := currentMonthSlice t today
  let alerts :=
    (if budgets.isEmpty then [] else check_budget_alerts currentMonthData budgets) ++
    check_spending_spikes t currentMonthData ++
    check_unusual_transactions t currentMonthData ++
    check_category_overspending t currentMonthData ++
    check_trend_alerts t ++
    check_recurring_expense_alerts t today
  (List.insertionSort alertRel alerts).take 10

/-! ## financial_calendar.py -/

/-- The recurring-bill keyword set of `_classify_day_type`. -/
def recurringKeywords : List String :=
  ["bill", "payment", "subscription", "rent", "mortgage", "insurance"]

/-- `FinancialCalendar._classify_day_type`, applied in the source's fixed
priority order. -/
def classify_day_type (dayRows : List Txn) (totalExpense : ℚ) : String :=
  if dayRows.isEmpty then "inactive"
  else if dayRows.any (fun r => 0 < r.amount) then "income_day"
  else if totalExpense > 200 then "high_spending"
  else if dayRows.any (fun r => anyKeywordIn recurringKeywords (pyLower r.description)) then
    "bills_day"
  else if totalExpense > 0 then "regular_spending"
  else "inactive"

/-- One day's summary record (the raw `transactions` listing of the source
dict is presentation data and is not modelled). -/
structure DaySummary where
  total_income : ℚ
  total_expense : ℚ
  net_flow : ℚ
  transaction_count : ℕ
  categories : List (String × ℚ)
  day_type : String
deriving DecidableEq, Repr

/-- Per-day expense-by-category breakdown (empty when the table has no
`category` column). -/
def dayExpenseCategories (t : Table) (dayRows : List Txn) : List (String × ℚ) :=
  if t.hasCategory then
    let ex := dayRows.filter (fun r => r.amount < 0)
    (strKeysOf (ex.map Txn.category)).map
      (fun c => (c, |sumAmounts ex (fun r => r.category = c)|))
  else []

/-- `FinancialCalendar._create_daily_summary`: days 1..31, with an entry
only for days that have transactions. -/
def create_daily_summary (t : Table) : List (ℕ × DaySummary) :=
  (List.range 31).filterMap (fun j =>
    let day := j + 1
    let dayRows := t.rows.filter (fun r => r.date.day = day)
    if dayRows.length > 0 then
      let totalIncome := sumAmounts dayRows (fun r => 0 < r.amount)
      let totalExpense := |sumAmounts dayRows (fun r => r.amount < 0)|
      some (day,
        ⟨totalIncome, totalExpense, totalIncome - totalExpense, dayRows.length,
         dayExpenseCategories t dayRows, classify_day_type dayRows totalExpense⟩)
    else none)

/-- One cell of the calendar matrix. Cells for days outside the month carry
`empty := true` (the source's empty-cell dicts omit the
`transactions`/`categories` keys; they are defaulted here). -/
structure CalCell where
  day : ℕ
  empty : Bool
  spending : ℚ
  income : ℚ
  net : ℚ
  transactions : ℕ
  ctype : String
  categories : List (String × ℚ)
deriving DecidableEq, Repr

def isLeapYear (y : ℕ) : Bool := y % 4 = 0 ∧ (y % 100 ≠ 0 ∨ y % 400 = 0)

def daysInMonth (y m : ℕ) : ℕ :=
  if m = 2 then (if isLeapYear y then 29 else 28)
  else if m = 4 ∨ m = 6 ∨ m = 9 ∨ m = 11 then 30 else 31

/-- Rows of at most 7 cells; 6 rows of fuel suffice for any month layout. -/
def chunks7 : ℕ → List ℕ → List (List ℕ)
  | 0, _ => []
  | _, [] => []
  | fuel + 1, h :: t => ((h :: t).take 7) :: chunks7 fuel ((h :: t).drop 7)

/-- `calendar.monthcalendar(year, month)`: weeks starting Monday, padded
with 0 for days outside the month. -/
def monthcalendar (y m : ℕ) : List (List ℕ) :=
  let w0 := (Date.mk y m 1).weekday
  let nd := daysInMonth y m
  let cells := List.replicate w0 0 ++ (List.range nd).map (· + 1)
  let pad := (7 - cells.length % 7) % 7
  chunks7 6 (cells ++ List.replicate pad 0)

/-- `FinancialCalendar._create_calendar_matrix`
(`daily_summary.get(day, {})` with per-key `.get(..., default)`). -/
def create_calendar_matrix (dailySummary : List (ℕ × DaySummary))
    (year month : ℕ) : List (List CalCell) :=
  (monthcalendar year month).map (fun week => week.map (fun day =>
    if day = 0 then ⟨0, true, 0, 0, 0, 0, "empty", []⟩
    else
      match dailySummary.lookup day with
      | some info =>
          ⟨day, false, info.total_expense, info.total_income, info.net_flow,
           info.transaction_count, info.day_type, info.categories⟩
      | none => ⟨day, false, 0, 0, 0, 0, "inactive", []⟩))

/-- The patterns dict of `_identify_spending_patterns`. The
`weekend_vs_weekday` sub-dict is flattened into three fields (it is `{}`
in the empty-table early return, modelled by the zero defaults);
`recurring_patterns` is never filled by the source. -/
structure Patterns where
  busiest_days : List (ℕ × ℕ)
  highest_spending_days : List (ℕ × ℚ)
  recurring_patterns : List String
  weekend_total : ℚ
  weekday_total : ℚ
  weekend_preference : Bool
  category_patterns : List ((String × String) × ℚ)
deriving DecidableEq, Repr

def emptyPatterns : Patterns := ⟨[], [], [], 0, 0, false, []⟩

/-- `Series.nlargest(3)` with pandas' `keep='first'`: stable descending
sort by value, first three. -/
def nlargest3N (l : List (ℕ × ℕ)) : List (ℕ × ℕ) :=
  (List.insertionSort (fun a b : ℕ × ℕ => b.2 ≤ a.2) l).take 3

def nlargest3Q (l : List (ℕ × ℚ)) : List (ℕ × ℚ) :=
  (List.insertionSort (fun a b : ℕ × ℚ => b.2 ≤ a.2) l).take 3

/-- Lexicographic ≤ on string pairs (group order of a two-level groupby). -/
def strPairLe (a b : String × String) : Prop :=
  strLt a.1 b.1 ∨ (a.1 = b.1 ∧ strLe a.2 b.2)

instance : DecidableRel strPairLe := fun a b => by unfold strPairLe; infer_instance

/-- `FinancialCalendar._identify_spending_patterns`. This is the one
in-place mutation of the module: `df['is_weekend'] = df['date'].dt.weekday
>= 5` adds a column to the frame it was given (the second component of the
result is that frame as the caller now sees it). On an empty frame it
returns early, before the mutation. -/
def identify_spending_patterns (df : Table) : Patterns × Table :=
  if df.rows.isEmpty then (emptyPatterns, df)
  else
    let dayKeys :=
      List.insertionSort (fun a b : ℕ => a ≤ b) (df.rows.map (fun r => r.date.day)).eraseDups
    let dailyCounts :=
      dayKeys.map (fun d => (d, (df.rows.filter (fun r => r.date.day = d)).length))
    let ex := df.rows.filter (fun r => r.amount < 0)
    let exDayKeys :=
      List.insertionSort (fun a b : ℕ => a ≤ b) (ex.map (fun r => r.date.day)).eraseDups
    let dailySpending :=
      exDayKeys.map (fun d => (d, |sumAmounts ex (fun r => r.date.day = d)|))
    let df' := { df with hasIsWeekend := true }
    let weekendSpending :=
      |sumAmounts df'.rows (fun r => r.amount < 0 ∧ r.date.weekday ≥ 5)|
    let weekdaySpending :=
      |sumAmounts df'.rows (fun r => r.amount < 0 ∧ ¬(r.date.weekday ≥ 5))|
    let categoryPatterns :=
      if df.hasCategory then
        let pairs := (ex.map (fun r => (dayName r.date.weekday, r.category))).eraseDups
        (List.insertionSort strPairLe pairs).map (fun p =>
          (p, |sumAmounts ex
                (fun r => dayName r.date.weekday = p.1 ∧ r.category = p.2)|))
      else []
    (⟨nlargest3N dailyCounts, nlargest3Q dailySpending, [],
      weekendSpending, weekdaySpending,
      decide (weekendSpending > weekdaySpending), categoryPatterns⟩, df')

/-- The month statistics dict of `_calculate_month_stats`. -/
structure MonthStats where
  total_income : ℚ
  total_expense : ℚ
  net_flow : ℚ
  transaction_count : ℕ
  daily_avg_expense : ℚ
  most_active_day : String
  spending_days : ℕ
  income_days : ℕ
deriving DecidableEq, Repr

/-- `Series.value_counts()`: counts in descending order; ties keep
first-encountered order. -/
def valueCounts (l : List String) : List (String × ℕ) :=
  List.insertionSort (fun a b : String × ℕ => b.2 ≤ a.2)
    (l.eraseDups.map (fun s => (s, (l.filter (fun x => x = s)).length)))

/-- `len(rows['date'].dt.day.unique())`: distinct day-of-month values. -/
def distinctDayCount (rows : List Txn) : ℕ :=
  ((rows.map (fun r => r.date.day)).eraseDups).length

/-- `FinancialCalendar._calculate_month_stats`. Note the average daily
expense divides by the number of distinct days having ANY transaction
(income or expense), not by the number of spending days. -/
def calculate_month_stats (df : Table) : MonthStats :=
  let totalIncome := sumAmounts df.rows (fun r => 0 < r.amount)
  let totalExpense := |sumAmounts df.rows (fun r => r.amount < 0)|
  let dailyAvgExpense :=
    if df.rows.length > 0 then
      totalExpense / ((max 1 (distinctDayCount df.rows) : ℕ) : ℚ)
    else 0
  let mostActiveDay :=
    match valueCounts (df.rows.map (fun r => dayName r.date.weekday)) with
    | [] => "N/A"
    | x :: _ => x.1
  ⟨totalIncome, totalExpense, totalIncome - totalExpense, df.rows.length,
   dailyAvgExpense, mostActiveDay,
   distinctDayCount (df.rows.filter (fun r => r.amount < 0)),
   distinctDayCount (df.rows.filter (fun r => 0 < r.amount))⟩

/-- The dict returned by `create_calendar_view`. -/
structure CalendarView where
  calendar_matrix : List (List CalCell)
  daily_summary : List (ℕ × DaySummary)
  patterns : Patterns
  month_stats : MonthStats
  year : ℕ
  month : ℕ
deriving DecidableEq, Repr

/-- `FinancialCalendar.create_calendar_view` (year/month are explicit; the
source defaults them to `datetime.now()`). The month slice is a `.copy()`,
so the in-place column addition performed by
`_identify_spending_patterns` lands on the copy; `_calculate_month_stats`
then runs on that mutated copy, and the caller's frame — the second
component — is unchanged. -/
def create_calendar_view (df : Table) (year month : ℕ) : CalendarView × Table :=
  let calendarData : Table :=
    ⟨df.rows.filter (fun r => r.date.year = year ∧ r.date.month = month),
     df.hasCategory, df.hasIsWeekend⟩
  let dailySummary := create_daily_summary calendarData
  let patsAndFrame := identify_spending_patterns calendarData
  let calendarMatrix := create_calendar_matrix dailySummary year month
  (⟨calendarMatrix, dailySummary, patsAndFrame.1,
    calculate_month_stats patsAndFrame.2, year, month⟩, df)

/-! ## Concrete inputs used by the claim theorems -/

def mkTxn (y m d : ℕ) (desc : String) (amt : ℚ) (cat : String) : Txn :=
  ⟨⟨y, m, d⟩, desc, amt, cat⟩

/-- Four months of perfectly linear expenses: series [100, 200, 300, 400]. -/
def linearTable : Table :=
  ⟨[mkTxn 2024 1 10 "Rent A" (-100) "Other",
    mkTxn 2024 2 10 "Rent B" (-200) "Other",
    mkTxn 2024 3 10 "Rent C" (-300) "Other",
    mkTxn 2024 4 10 "Rent D" (-400) "Other"], false, false⟩

/-- Five months of expenses: series [100, 100, 100, 100, 500]. -/
def spikeTable : Table :=
  ⟨[mkTxn 2024 1 10 "Shop A" (-100) "Other",
    mkTxn 2024 2 10 "Shop B" (-100) "Other",
    mkTxn 2024 3 10 "Shop C" (-100) "Other",
    mkTxn 2024 4 10 "Shop D" (-100) "Other",
    mkTxn 2024 5 10 "Shop E" (-500) "Other"], false, false⟩

/-- A perfectly valid table with a `category` column and one (income-only)
transaction: no expense rows at all. -/
def incomeOnlyTable : Table :=
  ⟨[mkTxn 2024 1 15 "Salary Deposit" 1000 "Income"], true, false⟩

/-- A table with a single expense transaction and no income rows. -/
def noIncomeTable : Table :=
  ⟨[mkTxn 2024 3 10 "Coffee Shop" (-50) "Food & Dining"], true, false⟩

def demoGoal : Goal := ⟨500⟩

/-- Table for the alert-ordering scenario: a recurring gym membership that
stopped three months ago plus one current-month grocery expense at 85% of
its budget. -/
def alertsTable : Table :=
  ⟨[mkTxn 2024 1 5 "Gym Membership" (-30) "Health & Medical",
    mkTxn 2024 2 5 "Gym Membership" (-30) "Health & Medical",
    mkTxn 2024 3 5 "Gym Membership" (-30) "Health & Medical",
    mkTxn 2024 6 10 "Grocery Store" (-85) "Food & Dining"], true, false⟩

def alertsBudgets : List (String × ℚ) := [("Food & Dining", 100)]

def alertsToday : Date := ⟨2024, 6, 15⟩

/-- Table for the strategy tie: one month, income 1000, Entertainment
expenses 200; a goal needing 850/month leaves a shortage of 50, so the
25%-Entertainment cut (Easy, 50) ties with the income strategy (Hard,
50). -/
def tieTable : Table :=
  ⟨[mkTxn 2024 1 5 "Paycheck" 1000 "Income",
    mkTxn 2024 1 12 "Concert tickets" (-200) "Entertainment"], true, false⟩

def tieGoal : Goal := ⟨850⟩

/-- July 2024: an expense of 100 on day 1 and an income of 50 on day 2 —
one spending day but two distinct transaction days. -/
def julyTable : Table :=
  ⟨[mkTxn 2024 7 1 "Coffee" (-100) "Food & Dining",
    mkTxn 2024 7 2 "Salary" 50 "Income"], true, false⟩

/-! ## Claim theorems -/

def predToday : Date := ⟨2024, 6, 15⟩

set_option maxRecDepth 2000

/-- Claim C1, counterexample: for the table whose monthly expense series is
exactly [100, 200, 300, 400] (fewer than 12 months, seasonal factor 1.0),
`predict_future_spending` with `months_ahead = 1` returns 600, not 500:
the OLS fit of this series has slope 100 and intercept 100 (not 0), and
the code evaluates the line at index `len(monthly_data) + 1 = 5`. -/
theorem predict_linear_counterexample :
    (predict_future_spending linearTable 1 predToday).predictions = [600] ∧
    ((600 : ℚ) ≠ 500) := by
  refine ⟨by decide, by norm_num⟩

/-- Claim C1, amended: on the series [100, 200, 300, 400] the first
predicted value is exactly `slope·(N+1) + intercept = 100·(4+1) + 100 =
600` (seasonal factor 1.0, no flooring), labelled with the month after the
last observed one. -/
theorem predict_linear_amended :
    (predict_future_spending linearTable 1 predToday).predictions =
      [100 * ((4 : ℚ) + 1) + 100] ∧
    (predict_future_spending linearTable 1 predToday).future_months = [(2024, 5)] ∧
    polyfit1 [100, 200, 300, 400] = (100, 100) := by
  refine ⟨by decide, by decide,
    by decide⟩

/-- Claim C2, counterexample: on the monthly series
[100, 100, 100, 100, 500], `detect_spending_anomalies` flags nothing at
all — in particular the 500 month is not flagged as a high-severity
anomaly. -/
theorem anomalies_spike_counterexample :
    (detect_spending_anomalies spikeTable).length = 0 := by
  decide

/-- Claim C2, amended: for the series [100, 100, 100, 100, 500] the sample
variance (ddof = 1) is 32000, so the 500 month's squared z-score is
(500−180)²/32000 = 3.2 — a z-score of about 1.79, below the 2.0 flagging
threshold (let alone 3) — and the anomaly list is empty. -/
theorem anomalies_spike_amended :
    detect_spending_anomalies spikeTable = [] ∧
    meanQ (monthlyExpenseValues spikeTable) = 180 ∧
    sampleVar (monthlyExpenseValues spikeTable) = some 32000 ∧
    ((500 - 180 : ℚ) ^ 2 / 32000 = 16/5 ∧ ¬((16/5 : ℚ) > 4)) := by
  refine ⟨by decide, by decide,
    by decide, by norm_num, by norm_num⟩

/-- Claim C3 (code bug): `calculate_health_score` raises on a perfectly
valid table — one that has a `category` column but no expense rows (here:
a single income transaction). The six component scores are computed, but
`_generate_health_insights` then calls `.idxmax()` on the empty
per-category expense series, and pandas raises `ValueError`, which
propagates to the caller — contradicting the no-raise guarantee. -/
theorem health_score_raises_on_income_only :
    calculate_health_score incomeOnlyTable =
      Except.error "attempt to get argmax of an empty sequence" := by
  rfl

/-- Claim C4 (code bug): with a transaction table containing no income
rows, `monthly_income = mean(empty series) = NaN`, the savings rate takes
the `else 0` branch (NaN > 0 is false), and `current_monthly_savings =
NaN * 0 = NaN` — a non-finite number surfaced in the returned dict. -/
theorem goal_feasibility_nan_savings :
    (analyze_goal_feasibility demoGoal noIncomeTable).current_monthly_savings
        = PF.nan ∧
    (analyze_goal_feasibility demoGoal noIncomeTable).current_monthly_savings.isFinite
        = false := by
  refine ⟨by decide, by decide⟩

/-- Claim C5, counterexample: the income special case precedes the keyword
scan, so a description containing "netflix" together with an income
keyword and a positive amount is categorized `Income`, not
`Bills & Utilities`. -/
theorem netflix_income_counterexample :
    categorize_single_transaction "Netflix Refund" 5 = "Income" ∧
    ("Income" : String) ≠ "Bills & Utilities" := by
  refine ⟨by decide, by decide⟩

/-- Claim C5, amended: a description containing "netflix" is categorized
`Bills & Utilities` — ahead of Entertainment, which also lists "netflix",
because Bills & Utilities is scanned first — provided (i) the
positive-amount income special case does not fire and (ii) no keyword of
the categories scanned earlier (Food & Dining, Transportation, Shopping)
occurs in the description. Without those provisos the claim is false
(see the counterexample). -/
theorem netflix_bills_precedence (description : String) (amount : ℚ)
    (h1 : containsSub "netflix" (pyLower description) = true)
    (h2 : anyKeywordIn foodKeywords (pyLower description) = false)
    (h3 : anyKeywordIn transportationKeywords (pyLower description) = false)
    (h4 : anyKeywordIn shoppingKeywords (pyLower description) = false)
    (h5 : ¬(0 < amount ∧ anyKeywordIn incomeSpecialKeywords (pyLower description) = true)) :
    categorize_by_keywords description amount = "Bills & Utilities" := by
  have hb : anyKeywordIn billsKeywords (pyLower description) = true := by
    unfold anyKeywordIn
    rw [List.any_eq_true]
    exact ⟨"netflix", by decide, h1⟩
  show (if 0 < amount ∧ anyKeywordIn incomeSpecialKeywords (pyLower description) = true
        then "Income"
        else match keywordMappings.find?
            (fun p => anyKeywordIn p.2 (pyLower description)) with
          | some p => p.1
          | none => "Other") = "Bills & Utilities"
  rw [if_neg h5]
  have hfind : keywordMappings.find? (fun p => anyKeywordIn p.2 (pyLower description)) =
      some ("Bills & Utilities", billsKeywords) := by
    show List.find? _ (("Food & Dining", foodKeywords) ::
      ("Transportation", transportationKeywords) :: ("Shopping", shoppingKeywords) ::
      ("Bills & Utilities", billsKeywords) :: ("Entertainment", entertainmentKeywords) ::
      ("Health & Medical", healthKeywords) :: ("Travel", travelKeywords) ::
      ("Education", educationKeywords) :: ("Insurance", insuranceKeywords) ::
      ("Investment", investmentKeywords) :: ("Income", incomeKeywords) ::
      [("Transfer", transferKeywords)]) = _
    rw [List.find?_cons_of_neg _ (by simp [h2]),
        List.find?_cons_of_neg _ (by simp [h3]),
        List.find?_cons_of_neg _ (by simp [h4]),
        List.find?_cons_of_pos _ (by simp [hb])]
  rw [hfind]

/-- Claim C5, witness: the amended precedence theorem applied to the plain
description "netflix" with a negative amount. -/
theorem netflix_bills_precedence_witness :
    containsSub "netflix" (pyLower "netflix") = true ∧
    categorize_by_keywords "netflix" (-15) = "Bills & Utilities" :=
  ⟨by decide,
   netflix_bills_precedence "netflix" (-15) (by decide) (by decide) (by decide)
     (by decide) (by decide)⟩

/-- Claim C8, counterexample: in July 2024 the table has a 100 expense on
day 1 and a 50 income on day 2. The calendar view's average daily expense
is 100/2 = 50 — the total expense divided by the number of distinct days
with ANY transaction — while dividing by the distinct spending days (1, as
the claim states) would give 100. -/
theorem calendar_avg_counterexample :
    (create_calendar_view julyTable 2024 7).1.month_stats.daily_avg_expense = 50 ∧
    (create_calendar_view julyTable 2024 7).1.month_stats.total_expense = 100 ∧
    (create_calendar_view julyTable 2024 7).1.month_stats.spending_days = 1 ∧
    ((50 : ℚ) ≠ 100 / 1) := by
  refine ⟨by decide, by decide, by decide, by norm_num⟩

theorem eraseDups_loop_length_ge {α} [BEq α] (as bs : List α) :
    bs.length ≤ (List.eraseDups.loop as bs).length := by
  induction as generalizing bs with
  | nil => simp [List.eraseDups.loop]
  | cons a as ih =>
    unfold List.eraseDups.loop
    cases h : bs.elem a with
    | true => simpa [h] using ih bs
    | false =>
      have := ih (a :: bs)
      simp only [h]
      exact le_trans (by simp) this

theorem eraseDups_length_pos {α} [BEq α] (a : α) (t : List α) :
    0 < ((a :: t).eraseDups).length := by
  show 0 < (List.eraseDups.loop (a :: t) []).length
  unfold List.eraseDups.loop
  simp only [List.elem_nil]
  exact lt_of_lt_of_le (by simp) (eraseDups_loop_length_ge t [a])

theorem identify_spending_patterns_rows (df : Table) :
    ((identify_spending_patterns df).2).rows = df.rows := by
  unfold identify_spending_patterns
  split <;> rfl

/-- Claim C8, amended: whenever the selected month's slice is nonempty, the
calendar view's average daily expense equals the month's total expense
divided by the number of distinct days having at least one transaction of
ANY kind (income or expense) — not by the number of distinct spending
days; that divisor is at least 1, so the internal `max(1, ·)` guard is
inactive. -/
theorem calendar_avg_amended (df : Table) (year month : ℕ)
    (h : df.rows.filter (fun r => r.date.year = year ∧ r.date.month = month) ≠ []) :
    (create_calendar_view df year month).1.month_stats.daily_avg_expense =
      (create_calendar_view df year month).1.month_stats.total_expense /
        ((distinctDayCount
            (df.rows.filter (fun r => r.date.year = year ∧ r.date.month = month)) : ℕ) : ℚ) ∧
    1 ≤ distinctDayCount
          (df.rows.filter (fun r => r.date.year = year ∧ r.date.month = month)) := by
  set rows := df.rows.filter (fun r => r.date.year = year ∧ r.date.month = month) with hrows
  obtain ⟨a, t, hat⟩ := List.exists_cons_of_ne_nil h
  have hpos : 1 ≤ distinctDayCount rows := by
    rw [hat]
    exact eraseDups_length_pos _ _
  have hlen : 0 < rows.length := by rw [hat]; simp
  have hframe : ((identify_spending_patterns
      ⟨rows, df.hasCategory, df.hasIsWeekend⟩).2).rows = rows :=
    identify_spending_patterns_rows _
  constructor
  · show (calculate_month_stats _).daily_avg_expense =
        (calculate_month_stats _).total_expense / ((distinctDayCount rows : ℕ) : ℚ)
    unfold calculate_month_stats
    simp only [hframe]
    rw [if_pos hlen]
    rw [Nat.max_eq_right hpos]
  · exact hpos

theorem cvBandedScore_range (v m c1 c2 c3 c4 : ℚ) :
    0 ≤ cvBandedScore v m c1 c2 c3 c4 ∧ cvBandedScore v m c1 c2 c3 c4 ≤ 100 := by
  unfold cvBandedScore
  split_ifs <;> norm_num

theorem savings_rate_score_range (t : Table) :
    0 ≤ calculate_savings_rate_score t ∧ calculate_savings_rate_score t ≤ 100 := by
  simp only [calculate_savings_rate_score]
  split_ifs <;> norm_num

theorem consistency_score_range (t : Table) :
    0 ≤ calculate_consistency_score t ∧ calculate_consistency_score t ≤ 100 := by
  simp only [calculate_consistency_score]
  split
  · norm_num
  · split
    · norm_num
    · exact cvBandedScore_range _ _ _ _ _ _

theorem foldl_balance_le (l : List (String × ℚ)) (cs : List (String × ℚ))
    (total : ℚ) : ∀ init : ℚ,
    (l.foldl (fun acc p =>
      match cs.lookup p.1 with
      | some amt => acc - min 30 (|amt / total - p.2| * 200)
      | none => acc) init) ≤ init := by
  induction l with
  | nil => intro init; simp
  | cons p l ih =>
    intro init
    simp only [List.foldl_cons]
    cases h : cs.lookup p.1 with
    | none => simpa [h] using ih init
    | some amt =>
      simp only [h]
      refine le_trans (ih _) ?_
      have hmin : (0 : ℚ) ≤ min 30 (|amt / total - p.2| * 200) :=
        le_min (by norm_num) (by positivity)
      linarith

theorem category_balance_score_range (t : Table) :
    0 ≤ calculate_category_balance_score t ∧
    calculate_category_balance_score t ≤ 100 := by
  simp only [calculate_category_balance_score]
  split
  · norm_num
  · split
    · norm_num
    · constructor
      · exact le_trans (by norm_num) (le_max_left 40 _)
      · exact max_le (by norm_num)
          (le_trans (foldl_balance_le _ _ _ 100) (by norm_num))

theorem debt_management_score_range (t : Table) :
    0 ≤ calculate_debt_management_score t ∧
    calculate_debt_management_score t ≤ 100 := by
  simp only [calculate_debt_management_score]
  split_ifs <;> norm_num

theorem income_stability_score_range (t : Table) :
    0 ≤ calculate_income_stability_score t ∧
    calculate_income_stability_score t ≤ 100 := by
  simp only [calculate_income_stability_score]
  split
  · norm_num
  · split
    · norm_num
    · exact cvBandedScore_range _ _ _ _ _ _

theorem emergency_fund_score_range (t : Table) :
    0 ≤ calculate_emergency_fund_score t ∧
    calculate_emergency_fund_score t ≤ 100 := by
  simp only [calculate_emergency_fund_score]
  split_ifs <;> norm_num

theorem totalHealthScore_range (t : Table) :
    0 ≤ totalHealthScore t ∧ totalHealthScore t ≤ 100 := by
  obtain ⟨a0, a1⟩ := savings_rate_score_range t
  obtain ⟨b0, b1⟩ := consistency_score_range t
  obtain ⟨c0, c1⟩ := category_balance_score_range t
  obtain ⟨d0, d1⟩ := debt_management_score_range t
  obtain ⟨e0, e1⟩ := income_stability_score_range t
  obtain ⟨f0, f1⟩ := emergency_fund_score_range t
  have ht : totalHealthScore t =
      calculate_savings_rate_score t * (25/100) +
      (calculate_consistency_score t * (20/100) +
      (calculate_category_balance_score t * (15/100) +
      (calculate_debt_management_score t * (15/100) +
      (calculate_income_stability_score t * (15/100) +
      (calculate_emergency_fund_score t * (10/100) + 0))))) := by rfl
  rw [ht]
  constructor <;> linarith

theorem health_total_round_range (t : Table) :
    0 ≤ ((round (totalHealthScore t * 10) : ℤ) : ℚ) / 10 ∧
    ((round (totalHealthScore t * 10) : ℤ) : ℚ) / 10 ≤ 100 := by
  obtain ⟨h0, h1⟩ := totalHealthScore_range t
  have hl : (0 : ℤ) ≤ round (totalHealthScore t * 10) := by
    rw [round_eq]
    exact Int.le_floor.mpr (by push_cast; linarith)
  have hu : round (totalHealthScore t * 10) ≤ 1000 := by
    rw [round_eq]
    rw [Int.floor_le_iff]
    push_cast
    linarith
  constructor
  · positivity
  · have hq : ((round (totalHealthScore t * 10) : ℤ) : ℚ) ≤ 1000 := by
      exact_mod_cast hu
    linarith

theorem health_score_components_eq (t : Table) :
    (calculate_health_score t).map HealthResult.component_scores =
      (generate_health_insights (healthComponentScores t) t).map
        (fun _ => healthComponentScores t) := by
  unfold calculate_health_score
  cases h : generate_health_insights (healthComponentScores t) t <;>
    simp [h, Except.map, bind, Except.bind, pure, Except.pure]

/-- Claim C9: every component score of the health scorer lies in [0,100]
for every transaction table; the fixed weights sum to 1; the weighted
total — and the rounded total actually stored in the result — lies in
[0,100]; and whenever `calculate_health_score` returns, the component
scores it carries are exactly these six values. -/
theorem health_scores_in_range (t : Table) :
    (0 ≤ calculate_savings_rate_score t ∧ calculate_savings_rate_score t ≤ 100) ∧
    (0 ≤ calculate_consistency_score t ∧ calculate_consistency_score t ≤ 100) ∧
    (0 ≤ calculate_category_balance_score t ∧
      calculate_category_balance_score t ≤ 100) ∧
    (0 ≤ calculate_debt_management_score t ∧
      calculate_debt_management_score t ≤ 100) ∧
    (0 ≤ calculate_income_stability_score t ∧
      calculate_income_stability_score t ≤ 100) ∧
    (0 ≤ calculate_emergency_fund_score t ∧ calculate_emergency_fund_score t ≤ 100) ∧
    ((score_weights.map Prod.snd).sum = 1) ∧
    (0 ≤ totalHealthScore t ∧ totalHealthScore t ≤ 100) ∧
    (0 ≤ ((round (totalHealthScore t * 10) : ℤ) : ℚ) / 10 ∧
      ((round (totalHealthScore t * 10) : ℤ) : ℚ) / 10 ≤ 100) ∧
    ((calculate_health_score t).map HealthResult.component_scores =
      (generate_health_insights (healthComponentScores t) t).map
        (fun _ => healthComponentScores t)) :=
  ⟨savings_rate_score_range t, consistency_score_range t,
   category_balance_score_range t, debt_management_score_range t,
   income_stability_score_range t, emergency_fund_score_range t,
   by norm_num [score_weights], totalHealthScore_range t,
   health_total_round_range t, health_score_components_eq t⟩

/-- Claim C6: `generate_alerts` returns at most 10 alerts, sorted by
descending type priority with the fixed priority table
(budget_exceeded 10, spending_spike 9, budget_warning 8,
unusual_transaction 7, category_overspend 6, upward_trend 5,
missing_recurring 3, anything else 1); consequently any `budget_warning`
alert in the output precedes any `missing_recurring` alert. -/
theorem generate_alerts_ordered (t : Table) (budgets : List (String × ℚ))
    (d : Date) :
    (generate_alerts t budgets d).length ≤ 10 ∧
    List.Sorted alertRel (generate_alerts t budgets d) ∧
    (get_alert_priority "budget_exceeded" = 10 ∧
     get_alert_priority "spending_spike" = 9 ∧
     get_alert_priority "budget_warning" = 8 ∧
     get_alert_priority "unusual_transaction" = 7 ∧
     get_alert_priority "category_overspend" = 6 ∧
     get_alert_priority "upward_trend" = 5 ∧
     get_alert_priority "missing_recurring" = 3 ∧
     get_alert_priority "anything else" = 1) ∧
    (∀ i j (hi : i < (generate_alerts t budgets d).length)
        (hj : j < (generate_alerts t budgets d).length),
      ((generate_alerts t budgets d).get ⟨i, hi⟩).atype = "budget_warning" →
      ((generate_alerts t budgets d).get ⟨j, hj⟩).atype = "missing_recurring" →
      i < j) := by
  have hsorted : List.Sorted alertRel (generate_alerts t budgets d) := by
    unfold generate_alerts
    exact List.Pairwise.sublist (List.take_sublist _ _)
      (List.sorted_insertionSort alertRel _)
  refine ⟨?_, hsorted, by refine ⟨?_, ?_, ?_, ?_, ?_, ?_, ?_, ?_⟩ <;> decide, ?_⟩
  · unfold generate_alerts
    rw [List.length_take]
    exact Nat.min_le_left _ _
  · intro i j hi hj hwi hrj
    by_contra hij
    push_neg at hij
    rcases lt_or_eq_of_le hij with hlt | heq
    · have hp := List.pairwise_iff_getElem.mp hsorted j i hj hi hlt
      unfold alertRel at hp
      rw [List.get_eq_getElem] at hwi hrj
      rw [hwi, hrj] at hp
      revert hp
      decide
    · subst heq
      rw [List.get_eq_getElem] at hwi hrj
      rw [hwi] at hrj
      exact absurd hrj (by decide)

/-- Claim C6, witness: a concrete call producing four alerts — a spending
spike, the budget warning (85% of the Food & Dining budget), an upward
trend, and a missing recurring expense — in that priority order; the
ordering theorem applied at indices 1 and 3 confirms the budget warning
precedes the missing-recurring alert. -/
theorem generate_alerts_ordered_witness :
    ((generate_alerts alertsTable alertsBudgets alertsToday).map Alert.atype =
      ["spending_spike", "budget_warning", "upward_trend", "missing_recurring"]) ∧
    (1 : ℕ) < 3 := by
  refine ⟨by decide, ?_⟩
  exact (generate_alerts_ordered alertsTable alertsBudgets alertsToday).2.2.2
    1 3 (by decide) (by decide) (by decide) (by decide)

/-- Claim C7, counterexample: with `tieTable` and a goal needing 850/month
(shortage 50), the 25% Entertainment cut (Easy, savings 50) and the income
strategy (Hard, savings 50) tie on potential savings, and the sort key
`(potential_savings, -difficulty_score)` with `reverse=True` puts the
HARDER strategy first — "Increase Income" (Hard) precedes
"Cut Entertainment" (Easy) — contradicting the claimed Easy-first
tie-break. -/
theorem strategies_tie_counterexample :
    (generate_savings_strategies tieGoal tieTable).map
        (fun s => (s.strategy, s.potential_savings, s.difficulty)) =
      [("Combination Approach", 80, "Medium"), ("Increase Income", 50, "Hard"),
       ("Cut Entertainment", 50, "Easy"),
       ("Reduce Entertainment Spending", 30, "Medium")] := by decide

/-- Claim C7, amended: when the table has a `category` column,
`generate_savings_strategies` returns at most 5 strategies ordered by
potential savings descending, but ties are broken by the HARDER difficulty
first (the key is `(potential_savings, -difficulty_score)` sorted
descending, so on equal savings the lower ease score wins); without a
`category` column a fixed default list is returned unsorted. -/
theorem strategies_sorted (goal : Goal) (t : Table) (h : t.hasCategory = true) :
    (generate_savings_strategies goal t).length ≤ 5 ∧
    List.Sorted stratRel (generate_savings_strategies goal t) := by
  unfold generate_savings_strategies
  rw [h]
  rw [if_neg (by decide : ¬(true = false))]
  dsimp only
  split
  · exact ⟨by decide, List.sorted_singleton _⟩
  · constructor
    · rw [List.length_take]
      exact Nat.min_le_left _ _
    · exact List.Pairwise.sublist (List.take_sublist _ _)
        (List.sorted_insertionSort stratRel _)

/-- Claim C7, witness: the sortedness theorem applied to the concrete
tie-producing table. -/
theorem strategies_sorted_witness :
    tieTable.hasCategory = true ∧
    (generate_savings_strategies tieGoal tieTable).length ≤ 5 :=
  ⟨rfl, (strategies_sorted tieGoal tieTable rfl).1⟩

/-! ## Frame behaviour of the engines (claim C10)

Besides `categorize_transactions` and `create_calendar_view` — whose
source mutates a `.copy()` of the input frame and whose embeddings above
therefore return the caller-visible table as a second component — the
remaining engine entry points perform no assignment into the input frame
anywhere in their source, so their caller-visible table is the input
itself; the `FX` wrappers state that explicitly. -/

def calculate_health_scoreFX (t : Table) :
    Except String HealthResult × Table := (calculate_health_score t, t)

def predict_future_spendingFX (t : Table) (monthsAhead : ℕ) (today : Date) :
    PredictionResult × Table := (predict_future_spending t monthsAhead today, t)

def detect_spending_anomaliesFX (t : Table) : List Anomaly × Table :=
  (detect_spending_anomalies t, t)

def generate_alertsFX (t : Table) (budgets : List (String × ℚ)) (today : Date) :
    List Alert × Table := (generate_alerts t budgets today, t)

def analyze_goal_feasibilityFX (g : Goal) (t : Table) : Feasibility × Table :=
  (analyze_goal_feasibility g t, t)

/-- Claim C10: no engine call modifies the caller's transaction table —
batch categorization, health scoring, prediction, anomaly detection, alert
generation, the calendar view and goal feasibility all leave the input
table equal to its value before the call (for the two operations that do
mutate a frame in the source, the mutation lands on a `.copy()`); and
batch categorization indeed produces a new, categorized table (its result
always carries the `category` column). -/
theorem engines_preserve_input (t : Table) (g : Goal)
    (budgets : List (String × ℚ)) (d : Date) (m y mo : ℕ) :
    (categorize_transactions t).2 = t ∧
    (calculate_health_scoreFX t).2 = t ∧
    (predict_future_spendingFX t m d).2 = t ∧
    (detect_spending_anomaliesFX t).2 = t ∧
    (generate_alertsFX t budgets d).2 = t ∧
    (create_calendar_view t y mo).2 = t ∧
    (analyze_goal_feasibilityFX g t).2 = t ∧
    (categorize_transactions t).1.hasCategory = true := by
  refine ⟨rfl, rfl, rfl, rfl, rfl, rfl, rfl, ?_⟩
  unfold categorize_transactions
  cases h : t.hasCategory <;> simp [h]

/-- Claim C8, witness: the amended average-daily-expense equation applied
to the concrete July 2024 table (divisor 2 = the two distinct transaction
days). -/
theorem calendar_avg_amended_witness :
    (julyTable.rows.filter
        (fun r => r.date.year = 2024 ∧ r.date.month = 7) ≠ []) ∧
    ((create_calendar_view julyTable 2024 7).1.month_stats.daily_avg_expense =
      (create_calendar_view julyTable 2024 7).1.month_stats.total_expense /
        ((distinctDayCount (julyTable.rows.filter
            (fun r => r.date.year = 2024 ∧ r.date.month = 7)) : ℕ) : ℚ)) :=
  ⟨by decide, (calendar_avg_amended julyTable 2024 7 (by decide)).1⟩
